import Mathlib

/-! Shallow embedding of the parallel task runner of `sdcm/utils/common.py`:
`ParallelObject.__init__` / `ParallelObject.run` / `ParallelObject.clean_up`,
together with `ParallelObjectResult` and `ParallelObjectException`.

Modelling choices.

* A future is abstracted by a family `resolve : Nat → ℚ → FutureRes β`:
  `resolve i b` is the behaviour of `futures[i].result(b)` when the harvest
  loop waits on it with budget `b` seconds — it either returns the value the
  operation produced or raises an exception.  A per-task wait timeout raises
  `FuturesTimeoutError`, exactly as `concurrent.futures.Future.result` does,
  so the harvest loop distinguishes timeouts from other failures only by the
  exception class, as the source's `except` clauses do.  Quantifying over
  every such family covers every possible completion order of the underlying
  worker threads.

* The caller-supplied input collection `self.objects` is any Python iterable;
  `PyIterable` models the two behaviours the source exercises: a list
  (iterable and subscriptable) and a one-shot generator (iterable, but
  `objects[i]` raises `TypeError`).

* Time is `ℚ`; the collapsed budget literal `0.001` of the source is `1/1000`.
-/

/-- Python exception values, by class, as the harvest loop and the aggregator
distinguish them (`except FuturesTimeoutError` vs `except Exception`,
`isinstance(result.exc, FuturesTimeoutError)`). -/
inductive PyErr where
  | futuresTimeoutError (msg : String)
  | typeError (msg : String)
  | indexError (msg : String)
  | exception (msg : String)
deriving DecidableEq

/-- `isinstance(e, FuturesTimeoutError)`. -/
def PyErr.isTimeout : PyErr → Bool
  | PyErr.futuresTimeoutError _ => true
  | _ => false

/-- What `future.result(budget)` does: return the operation's value, or raise
an exception (a wait-budget expiry raises `futuresTimeoutError`). -/
inductive FutureRes (β : Type) where
  | ok (v : β)
  | raise (e : PyErr)
deriving DecidableEq

/-- `ParallelObjectResult`: `obj` back-references the input, `result` holds the
operation's return value, `exc` the captured exception, as in the source's
three-field constructor. -/
structure ParallelObjectResult (α β : Type) where
  obj : α
  result : Option β
  exc : Option PyErr
deriving DecidableEq

/-- The caller-supplied `objects` iterable: a list, or a one-shot generator. -/
inductive PyIterable (α : Type) where
  | pylist (xs : List α)
  | pygen (xs : List α)

/-- Iterating the collection (the submission loop `for obj in self.objects`)
succeeds on both shapes and yields the elements in order. -/
def PyIterable.toList {α : Type} : PyIterable α → List α
  | PyIterable.pylist xs => xs
  | PyIterable.pygen xs => xs

/-- Subscripting `self.objects[obj_idx]`, as done in the harvest loop: a list
returns its element (or raises `IndexError` out of range); a generator raises
`TypeError`. -/
def PyIterable.getItem {α : Type} : PyIterable α → Nat → Except PyErr α
  | PyIterable.pylist xs, i =>
    if h : i < xs.length then Except.ok (xs.get ⟨i, h⟩)
    else Except.error (PyErr.indexError "list index out of range")
  | PyIterable.pygen _, _ =>
    Except.error (PyErr.typeError "generator object is not subscriptable")

/-- The harvest loop of `ParallelObject.run`:

    time_out = self.timeout
    for obj_idx, future in enumerate(futures):
        try:
            result = future.result(time_out)
        except FuturesTimeoutError as exception:
            results.append(ParallelObjectResult(obj=self.objects[obj_idx], exc=exception, result=None))
            time_out = 0.001
        except Exception as exception:
            results.append(ParallelObjectResult(obj=self.objects[obj_idx], exc=exception, result=None))
        else:
            results.append(ParallelObjectResult(obj=self.objects[obj_idx], exc=None, result=result))

`i` is `obj_idx`, `time_out` the mutable budget, `rem` the number of futures
still to harvest (`futures` has one entry per iterated input).  An exception
raised by `self.objects[obj_idx]` itself (e.g. `TypeError` on a generator)
propagates out of the loop, aborting the run. -/
def runLoop {α β : Type} (resolve : Nat → ℚ → FutureRes β) (objs : PyIterable α) :
    Nat → ℚ → Nat → Except PyErr (List (ParallelObjectResult α β))
  | _, _, 0 => Except.ok []
  | i, time_out, rem + 1 =>
    match resolve i time_out with
    | FutureRes.ok result =>
      match objs.getItem i with
      | Except.error e => Except.error e
      | Except.ok obj =>
        (runLoop resolve objs (i + 1) time_out rem).map
          (fun rest => ParallelObjectResult.mk obj (some result) none :: rest)
    | FutureRes.raise e =>
      match objs.getItem i with
      | Except.error e2 => Except.error e2
      | Except.ok obj =>
        if e.isTimeout then
          (runLoop resolve objs (i + 1) (1/1000) rem).map
            (fun rest => ParallelObjectResult.mk obj none (some e) :: rest)
        else
          (runLoop resolve objs (i + 1) time_out rem).map
            (fun rest => ParallelObjectResult.mk obj none (some e) :: rest)

/-- The ways `ParallelObject.run` can raise:
`propagated` — an exception escaping the harvest loop itself (e.g. the
`TypeError` from subscripting a generator);
`futuresTimeoutBatch` — `raise FuturesTimeoutError("when running on: %s" % [r.obj for r in results])`,
carrying the inputs interpolated into the message;
`parallelObjectException` — `raise ParallelObjectException(results=results)`. -/
inductive RunError (α β : Type) where
  | propagated (e : PyErr)
  | futuresTimeoutBatch (named : List α)
  | parallelObjectException (results : List (ParallelObjectResult α β))
deriving DecidableEq

/-- `ParallelObject.run`: harvest all futures (one per iterated input), then

    if ignore_exceptions: return results
    timed_out = [r for r in results if isinstance(r.exc, FuturesTimeoutError)]
    if timed_out: raise FuturesTimeoutError("when running on: %s" % [r.obj for r in results])
    runs_that_finished_with_exception = [r for r in results if r.exc]
    if runs_that_finished_with_exception: raise ParallelObjectException(results=results)
    return results
-/
def ParallelObject.run {α β : Type} (objs : PyIterable α) (timeout : ℚ)
    (resolve : Nat → ℚ → FutureRes β) (ignore_exceptions : Bool) :
    Except (RunError α β) (List (ParallelObjectResult α β)) :=
  match runLoop resolve objs 0 timeout objs.toList.length with
  | Except.error e => Except.error (RunError.propagated e)
  | Except.ok results =>
    if ignore_exceptions then Except.ok results
    else
      match results.filter (fun r => r.exc.any PyErr.isTimeout) with
      | _ :: _ =>
        Except.error (RunError.futuresTimeoutBatch (results.map ParallelObjectResult.obj))
      | [] =>
        match results.filter (fun r => r.exc.isSome) with
        | _ :: _ => Except.error (RunError.parallelObjectException results)
        | [] => Except.ok results

/-- The sequence of `(input, error)` pairs interpolated into
`ParallelObjectException.__str__`:

    for res in self.results:
        if res.exc:
            ex_str += f"..."   -- res.obj and res.exc
-/
def parallelObjectExceptionPairs {α β : Type}
    (results : List (ParallelObjectResult α β)) : List (α × PyErr) :=
  results.filterMap (fun r => r.exc.map (fun e => (r.obj, e)))

/-- The value of the mutable `time_out` variable just before the harvest loop
waits on `futures[i]`.  It replays the loop's own update rule: it starts at the
configured timeout, and a wait that raises a `FuturesTimeoutError` sets it to
`0.001` for all later waits. -/
def specBudget {β : Type} (resolve : Nat → ℚ → FutureRes β) (t : ℚ) : Nat → ℚ
  | 0 => t
  | i + 1 =>
    match resolve i (specBudget resolve t i) with
    | FutureRes.raise e => if e.isTimeout then 1/1000 else specBudget resolve t i
    | FutureRes.ok _ => specBudget resolve t i

/-- Whether the wait on `futures[i]` (at the budget the loop actually uses
there) raises a `FuturesTimeoutError`. -/
def timedOutAt {β : Type} (resolve : Nat → ℚ → FutureRes β) (t : ℚ) (i : Nat) : Bool :=
  match resolve i (specBudget resolve t i) with
  | FutureRes.raise e => e.isTimeout
  | FutureRes.ok _ => false

/-- The outcome record the harvest loop appends for one input, given what the
wait on its future did. -/
def mkOutcome {α β : Type} (o : α) : FutureRes β → ParallelObjectResult α β
  | FutureRes.ok v => ParallelObjectResult.mk o (some v) none
  | FutureRes.raise e => ParallelObjectResult.mk o none (some e)

/-- The outcome list the harvest loop produces for the inputs `xs` occupying
positions `n, n+1, ...`, expressed via `specBudget`.  A characterisation used
by the lemmas below; `runLoop` on a list input is proved equal to it. -/
def outcomesFrom {α β : Type} (resolve : Nat → ℚ → FutureRes β) (t : ℚ) :
    Nat → List α → List (ParallelObjectResult α β)
  | _, [] => []
  | n, o :: rest =>
    mkOutcome o (resolve n (specBudget resolve t n)) :: outcomesFrom resolve t (n + 1) rest

/-- Python values, as far as the submission loop inspects them
(`isinstance(obj, (list, tuple))`, `isinstance(obj, dict)`). -/
inductive PyVal where
  | int (n : Int)
  | str (s : String)
  | list (xs : List PyVal)
  | tuple (xs : List PyVal)
  | dict (entries : List (String × PyVal))
  | pynone

/-- How one input is turned into an invocation of the operation:
`starArgs` is `func(*obj)`, `starKwargs` is `func(**obj)`, `singleArg` is
`func(obj)`. -/
inductive Invocation where
  | starArgs (args : List PyVal)
  | starKwargs (entries : List (String × PyVal))
  | singleArg (obj : PyVal)

/-- The submission-loop adapter of `ParallelObject.run`:

    if unpack_objects and isinstance(obj, (list, tuple)):
        futures.append(self._thread_pool.submit(func, *obj))
    elif unpack_objects and isinstance(obj, dict):
        futures.append(self._thread_pool.submit(func, **obj))
    else:
        futures.append(self._thread_pool.submit(func, obj))
-/
def submitInvocation (unpack_objects : Bool) (obj : PyVal) : Invocation :=
  match unpack_objects, obj with
  | true, PyVal.list xs => Invocation.starArgs xs
  | true, PyVal.tuple xs => Invocation.starArgs xs
  | true, PyVal.dict kvs => Invocation.starKwargs kvs
  | _, _ => Invocation.singleArg obj

/-- The spec's three-valued unpack mode (§4.4). -/
inductive UnpackMode where
  | nomode
  | positional
  | keyword

/-- Adapter exactly as the spec words it (§4.4), used only to compare with the
source's `submitInvocation`: `nomode` passes the input as a single positional
argument; `positional` spreads an ordered sequence and otherwise behaves as
`nomode`; `keyword` spreads a mapping and otherwise behaves as `nomode`. -/
def specUnpackAdapter : UnpackMode → PyVal → Invocation
  | UnpackMode.nomode, obj => Invocation.singleArg obj
  | UnpackMode.positional, PyVal.list xs => Invocation.starArgs xs
  | UnpackMode.positional, PyVal.tuple xs => Invocation.starArgs xs
  | UnpackMode.positional, obj => Invocation.singleArg obj
  | UnpackMode.keyword, PyVal.dict kvs => Invocation.starKwargs kvs
  | UnpackMode.keyword, obj => Invocation.singleArg obj

/-- Process-wide interpreter exit hooks relevant to the cleanup code:
`pythonExitWaiter` is `concurrent.futures.thread._python_exit`, the hook the
futures library registers so the interpreter waits for worker threads at
shutdown. -/
inductive ExitHook where
  | pythonExitWaiter
deriving DecidableEq

/-- Observable side effects of `ParallelObject.clean_up`. -/
inductive CleanupEffect where
  | cancelFuture (idx : Nat)
  | shutdownPool (waitForTasks : Bool)
  | atexitUnregisterHook (h : ExitHook)
  | atexitRegisterHook (h : ExitHook)
deriving DecidableEq

/-- The effect trace of `ParallelObject.clean_up` over `numFutures` futures:

    for future in futures:
        future.cancel()
    self._thread_pool.shutdown(wait=False)
    atexit.unregister(_python_exit)
-/
def ParallelObject.clean_up (numFutures : Nat) : List CleanupEffect :=
  ((List.range numFutures).map CleanupEffect.cancelFuture) ++
    [CleanupEffect.shutdownPool false,
     CleanupEffect.atexitUnregisterHook ExitHook.pythonExitWaiter]

/-- Whether an effect trace touches the process-wide interpreter exit-hook
registry at all (registering or unregistering a hook).  A cleanup that is
"explicit and local to the run call" produces no such effect. -/
def touchesProcessExitHooks (effs : List CleanupEffect) : Bool :=
  effs.any (fun e =>
    match e with
    | CleanupEffect.atexitUnregisterHook _ => true
    | CleanupEffect.atexitRegisterHook _ => true
    | _ => false)

lemma specBudget_zero {β : Type} (resolve : Nat → ℚ → FutureRes β) (t : ℚ) :
    specBudget resolve t 0 = t := rfl

lemma specBudget_succ {β : Type} (resolve : Nat → ℚ → FutureRes β) (t : ℚ) (i : Nat) :
    specBudget resolve t (i + 1) =
      (match resolve i (specBudget resolve t i) with
       | FutureRes.raise e => if e.isTimeout then 1/1000 else specBudget resolve t i
       | FutureRes.ok _ => specBudget resolve t i) := rfl

lemma specBudget_succ_of_not_timedOut {β : Type} (resolve : Nat → ℚ → FutureRes β)
    (t : ℚ) (i : Nat) (h : timedOutAt resolve t i = false) :
    specBudget resolve t (i + 1) = specBudget resolve t i := by
  unfold timedOutAt at h
  rw [specBudget_succ]
  cases hres : resolve i (specBudget resolve t i) with
  | ok v => rfl
  | raise e =>
    rw [hres] at h
    have h2 : e.isTimeout = false := by simpa using h
    simp [h2]

lemma specBudget_succ_of_timedOut {β : Type} (resolve : Nat → ℚ → FutureRes β)
    (t : ℚ) (i : Nat) (h : timedOutAt resolve t i = true) :
    specBudget resolve t (i + 1) = 1/1000 := by
  unfold timedOutAt at h
  rw [specBudget_succ]
  cases hres : resolve i (specBudget resolve t i) with
  | ok v => rw [hres] at h; simp at h
  | raise e =>
    rw [hres] at h
    have h2 : e.isTimeout = true := by simpa using h
    simp [h2]

lemma specBudget_latch {β : Type} (resolve : Nat → ℚ → FutureRes β) (t : ℚ) :
    ∀ i j, j ≤ i → timedOutAt resolve t j = true → specBudget resolve t (i + 1) = 1/1000 := by
  intro i
  induction i with
  | zero =>
    intro j hj hto
    have hj0 : j = 0 := Nat.le_zero.mp hj
    subst hj0
    exact specBudget_succ_of_timedOut resolve t 0 hto
  | succ k ih =>
    intro j hj hto
    cases hlast : timedOutAt resolve t (k + 1) with
    | true => exact specBudget_succ_of_timedOut resolve t (k + 1) hlast
    | false =>
      have hjk : j ≤ k := by
        rcases Nat.lt_or_ge j (k + 1) with hlt | hge
        · exact Nat.lt_succ_iff.mp hlt
        · have : j = k + 1 := Nat.le_antisymm hj hge
          subst this
          rw [hto] at hlast
          exact absurd hlast (by simp)
      rw [specBudget_succ_of_not_timedOut resolve t (k + 1) hlast]
      exact ih j hjk hto

lemma outcomesFrom_length {α β : Type} (resolve : Nat → ℚ → FutureRes β) (t : ℚ) :
    ∀ (xs : List α) (n : Nat), (outcomesFrom resolve t n xs).length = xs.length := by
  intro xs
  induction xs with
  | nil => intro n; rfl
  | cons x rest ih =>
    intro n
    simp [outcomesFrom, ih (n + 1)]

lemma outcomesFrom_get? {α β : Type} (resolve : Nat → ℚ → FutureRes β) (t : ℚ) :
    ∀ (xs : List α) (n i : Nat),
      (outcomesFrom resolve t n xs).get? i =
        (xs.get? i).map (fun o => mkOutcome o (resolve (n + i) (specBudget resolve t (n + i)))) := by
  intro xs
  induction xs with
  | nil => intro n i; cases i <;> rfl
  | cons x rest ih =>
    intro n i
    cases i with
    | zero => rfl
    | succ j =>
      have := ih (n + 1) j
      simp only [outcomesFrom, List.get?_cons_succ, this]
      have harith : n + 1 + j = n + (j + 1) := by omega
      rw [harith]

lemma outcomesFrom_mem {α β : Type} (resolve : Nat → ℚ → FutureRes β) (t : ℚ) :
    ∀ (xs : List α) (n : Nat) (r : ParallelObjectResult α β),
      r ∈ outcomesFrom resolve t n xs →
      ∃ o res, r = mkOutcome o res := by
  intro xs
  induction xs with
  | nil => intro n r hr; exact absurd hr (by simp [outcomesFrom])
  | cons x rest ih =>
    intro n r hr
    simp only [outcomesFrom, List.mem_cons] at hr
    rcases hr with h | h
    · exact ⟨x, resolve n (specBudget resolve t n), h⟩
    · exact ih (n + 1) r h

lemma runLoop_succ {α β : Type} (resolve : Nat → ℚ → FutureRes β) (objs : PyIterable α)
    (i : Nat) (b : ℚ) (rem : Nat) :
    runLoop resolve objs i b (rem + 1) =
      (match resolve i b with
       | FutureRes.ok result =>
         match objs.getItem i with
         | Except.error e => Except.error e
         | Except.ok obj =>
           (runLoop resolve objs (i + 1) b rem).map
             (fun rest => ParallelObjectResult.mk obj (some result) none :: rest)
       | FutureRes.raise e =>
         match objs.getItem i with
         | Except.error e2 => Except.error e2
         | Except.ok obj =>
           if e.isTimeout then
             (runLoop resolve objs (i + 1) (1/1000) rem).map
               (fun rest => ParallelObjectResult.mk obj none (some e) :: rest)
           else
             (runLoop resolve objs (i + 1) b rem).map
               (fun rest => ParallelObjectResult.mk obj none (some e) :: rest)) := rfl

lemma runLoop_pylist {α β : Type} (resolve : Nat → ℚ → FutureRes β) (t : ℚ) (xs : List α) :
    ∀ (rem i : Nat), i + rem = xs.length →
      runLoop resolve (PyIterable.pylist xs) i (specBudget resolve t i) rem =
        Except.ok (outcomesFrom resolve t i (xs.drop i)) := by
  intro rem
  induction rem with
  | zero =>
    intro i hi
    have hdrop : xs.drop i = [] := List.drop_eq_nil_of_le (by omega)
    rw [hdrop]
    rfl
  | succ k ih =>
    intro i hi
    have hlt : i < xs.length := by omega
    have hdrop : xs.drop i = xs.get ⟨i, hlt⟩ :: xs.drop (i + 1) := by
      rw [List.drop_eq_getElem_cons hlt]
      rfl
    have hget : (PyIterable.pylist xs).getItem i = Except.ok (xs.get ⟨i, hlt⟩) := by
      simp [PyIterable.getItem, hlt]
    rw [hdrop, runLoop_succ]
    cases hres : resolve i (specBudget resolve t i) with
    | ok v =>
      have hb : specBudget resolve t (i + 1) = specBudget resolve t i := by
        rw [specBudget_succ, hres]
      rw [hget, ← hb, ih (i + 1) (by omega)]
      simp [outcomesFrom, mkOutcome, hres, Except.map]
    | raise e =>
      cases hto : e.isTimeout with
      | true =>
        have hb : specBudget resolve t (i + 1) = 1/1000 := by
          rw [specBudget_succ, hres]; simp [hto]
        have ih2 := ih (i + 1) (by omega)
        rw [hb] at ih2
        simp only [one_div] at ih2
        simp [hget, hto, ih2, outcomesFrom, mkOutcome, hres, Except.map]
      | false =>
        have hb : specBudget resolve t (i + 1) = specBudget resolve t i := by
          rw [specBudget_succ, hres]; simp [hto]
        have ih2 := ih (i + 1) (by omega)
        rw [hb] at ih2
        simp [hget, hto, ih2, outcomesFrom, mkOutcome, hres, Except.map]

lemma runLoop_pylist_full {α β : Type} (resolve : Nat → ℚ → FutureRes β) (t : ℚ)
    (xs : List α) :
    runLoop resolve (PyIterable.pylist xs) 0 t xs.length =
      Except.ok (outcomesFrom resolve t 0 xs) := by
  have := runLoop_pylist resolve t xs xs.length 0 (by omega)
  simpa [specBudget_zero] using this

lemma outcomesFrom_allOk {α β : Type} (resolve : Nat → ℚ → FutureRes β) (t : ℚ) (f : α → β) :
    ∀ (xs : List α) (n : Nat),
      (∀ j o b, xs.get? j = some o → resolve (n + j) b = FutureRes.ok (f o)) →
      outcomesFrom resolve t n xs =
        xs.map (fun o => ParallelObjectResult.mk o (some (f o)) none) := by
  intro xs
  induction xs with
  | nil => intro n _; rfl
  | cons x rest ih =>
    intro n h
    have hx : resolve (n + 0) (specBudget resolve t n) = FutureRes.ok (f x) :=
      h 0 x (specBudget resolve t n) rfl
    rw [Nat.add_zero] at hx
    simp only [outcomesFrom, List.map_cons, hx, mkOutcome]
    refine congrArg _ (ih (n + 1) ?_)
    intro j o b hj
    have hstep := h (j + 1) o b (by simpa using hj)
    rw [show n + (j + 1) = n + 1 + j by omega] at hstep
    exact hstep

lemma filters_empty_of_all_success {α β : Type} (results : List (ParallelObjectResult α β))
    (h : ∀ r ∈ results, r.exc = none) :
    results.filter (fun r => r.exc.any PyErr.isTimeout) = [] ∧
    results.filter (fun r => r.exc.isSome) = [] := by
  constructor <;>
    · rw [List.filter_eq_nil_iff]
      intro r hr
      rw [h r hr]
      simp

lemma run_pylist {α β : Type} (resolve : Nat → ℚ → FutureRes β) (t : ℚ)
    (xs : List α) (ign : Bool) :
    ParallelObject.run (PyIterable.pylist xs) t resolve ign =
      (if ign then Except.ok (outcomesFrom resolve t 0 xs)
       else
        match (outcomesFrom resolve t 0 xs).filter (fun r => r.exc.any PyErr.isTimeout) with
        | _ :: _ =>
          Except.error (RunError.futuresTimeoutBatch
            ((outcomesFrom resolve t 0 xs).map ParallelObjectResult.obj))
        | [] =>
          match (outcomesFrom resolve t 0 xs).filter (fun r => r.exc.isSome) with
          | _ :: _ =>
            Except.error (RunError.parallelObjectException (outcomesFrom resolve t 0 xs))
          | [] => Except.ok (outcomesFrom resolve t 0 xs)) := by
  unfold ParallelObject.run
  have htl : (PyIterable.pylist xs).toList = xs := rfl
  rw [htl, runLoop_pylist_full resolve t xs]

/-- C1: For every sequence of inputs and every operation that returns a value
for each input (never fails and never times out), `run` returns exactly one
outcome per input, in input order: the result list has the same length as the
input sequence, the i-th outcome's back-reference equals the i-th input, and
the i-th outcome's value equals the operation applied to the i-th input,
regardless of the order in which the underlying tasks complete (the statement
quantifies over every resolution family `resolve`). -/
theorem run_one_ordered_outcome_per_input {α β : Type}
    (xs : List α) (t : ℚ) (f : α → β) (ign : Bool)
    (resolve : Nat → ℚ → FutureRes β)
    (h : ∀ i o b, xs.get? i = some o → resolve i b = FutureRes.ok (f o)) :
    ∃ results,
      ParallelObject.run (PyIterable.pylist xs) t resolve ign = Except.ok results ∧
      results.length = xs.length ∧
      ∀ i o, xs.get? i = some o →
        results.get? i = some (ParallelObjectResult.mk o (some (f o)) none) := by
  have hout : outcomesFrom resolve t 0 xs =
      xs.map (fun o => ParallelObjectResult.mk o (some (f o)) none) :=
    outcomesFrom_allOk resolve t f xs 0
      (by intro j o b hj; rw [Nat.zero_add]; exact h j o b hj)
  have hnone : ∀ r ∈ outcomesFrom resolve t 0 xs, r.exc = none := by
    rw [hout]
    intro r hr
    rcases List.mem_map.mp hr with ⟨o, _, rfl⟩
    rfl
  obtain ⟨hft, hfe⟩ := filters_empty_of_all_success _ hnone
  refine ⟨outcomesFrom resolve t 0 xs, ?_, ?_, ?_⟩
  · rw [run_pylist]
    cases ign with
    | true => rfl
    | false => simp only [if_false, Bool.false_eq_true, hft, hfe]
  · rw [outcomesFrom_length]
  · intro i o hio
    rw [hout]
    rw [List.get?_eq_getElem?] at hio ⊢
    rw [List.getElem?_map, hio]
    rfl

def c1res : Nat → ℚ → FutureRes Int :=
  fun i _ => FutureRes.ok (if i = 0 then 5 else 7)

theorem run_one_ordered_outcome_per_input_witness :
    ∃ results,
      ParallelObject.run (PyIterable.pylist [(5 : Int), 7]) 6 c1res false = Except.ok results ∧
      results.length = ([(5 : Int), 7] : List Int).length ∧
      ∀ i o, ([(5 : Int), 7] : List Int).get? i = some o →
        results.get? i = some (ParallelObjectResult.mk o (some (id o)) none) :=
  run_one_ordered_outcome_per_input [(5 : Int), 7] 6 id false c1res
    (by
      intro i o b hio
      match i with
      | 0 =>
        have ho : o = 5 := by simpa using hio.symm
        subst ho
        rfl
      | 1 =>
        have ho : o = 7 := by simpa using hio.symm
        subst ho
        rfl
      | n + 2 => simp at hio)

/-- C2 counterexample: with `ignore_exceptions = false` and every task
succeeding, `run` does NOT return the unwrapped success values `[10, 20]`; it
returns the wrapped `ParallelObjectResult` records — exactly the same raw
outcome sequence that `ignore_exceptions = true` returns.  This refutes the
claim's "unwrapped success values (the operation's return values themselves,
not wrapped outcome objects)". -/
def c2res : Nat → ℚ → FutureRes Int :=
  fun i _ => FutureRes.ok (if i = 0 then 10 else 20)

theorem run_no_unwrap_counterexample :
    ParallelObject.run (PyIterable.pylist [(1 : Int), 2]) 6 c2res false =
      Except.ok [ParallelObjectResult.mk 1 (some 10) none,
                 ParallelObjectResult.mk 2 (some 20) none] ∧
    ParallelObject.run (PyIterable.pylist [(1 : Int), 2]) 6 c2res false =
      ParallelObject.run (PyIterable.pylist [(1 : Int), 2]) 6 c2res true := by
  exact ⟨rfl, rfl⟩

/-- C2 amended: when `ignore_exceptions` is false and every task resolves
successfully within the budget, `run` returns the same raw ordered outcome
sequence (wrapped `ParallelObjectResult` records, the values sitting in their
`result` fields) that it returns when `ignore_exceptions` is true; it performs
no unwrapping. -/
lemma outcomesFrom_allOk_mem {α β : Type} (resolve : Nat → ℚ → FutureRes β) (t : ℚ)
    (h : ∀ i b, ∃ v, resolve i b = FutureRes.ok v) :
    ∀ (xs : List α) (n : Nat) (r : ParallelObjectResult α β),
      r ∈ outcomesFrom resolve t n xs → r.result.isSome = true ∧ r.exc = none := by
  intro xs
  induction xs with
  | nil => intro n r hr; simp [outcomesFrom] at hr
  | cons x rest ih =>
    intro n r hr
    simp only [outcomesFrom, List.mem_cons] at hr
    rcases hr with rfl | hr
    · obtain ⟨v, hv⟩ := h n (specBudget resolve t n)
      simp [hv, mkOutcome]
    · exact ih (n + 1) r hr

theorem run_success_returns_raw_outcomes {α β : Type}
    (xs : List α) (t : ℚ) (resolve : Nat → ℚ → FutureRes β)
    (h : ∀ i b, ∃ v, resolve i b = FutureRes.ok v) :
    ParallelObject.run (PyIterable.pylist xs) t resolve false =
      ParallelObject.run (PyIterable.pylist xs) t resolve true ∧
    ∃ results,
      ParallelObject.run (PyIterable.pylist xs) t resolve false = Except.ok results ∧
      results.length = xs.length ∧
      ∀ r ∈ results, r.result.isSome = true ∧ r.exc = none := by
  have hall : ∀ r ∈ outcomesFrom resolve t 0 xs, r.result.isSome = true ∧ r.exc = none :=
    fun r hr => outcomesFrom_allOk_mem resolve t h xs 0 r hr
  obtain ⟨hft, hfe⟩ :=
    filters_empty_of_all_success (outcomesFrom resolve t 0 xs)
      (fun r hr => (hall r hr).2)
  have hfalse : ParallelObject.run (PyIterable.pylist xs) t resolve false =
      Except.ok (outcomesFrom resolve t 0 xs) := by
    rw [run_pylist]
    simp only [if_false, Bool.false_eq_true, hft, hfe]
  have htrue : ParallelObject.run (PyIterable.pylist xs) t resolve true =
      Except.ok (outcomesFrom resolve t 0 xs) := by
    rw [run_pylist]
    rfl
  refine ⟨by rw [hfalse, htrue], outcomesFrom resolve t 0 xs, hfalse, ?_, hall⟩
  rw [outcomesFrom_length]

theorem run_success_returns_raw_outcomes_witness :
    ParallelObject.run (PyIterable.pylist [(1 : Int), 2]) 6 c2res false =
      ParallelObject.run (PyIterable.pylist [(1 : Int), 2]) 6 c2res true ∧
    ∃ results,
      ParallelObject.run (PyIterable.pylist [(1 : Int), 2]) 6 c2res false = Except.ok results ∧
      results.length = ([(1 : Int), 2] : List Int).length ∧
      ∀ r ∈ results, r.result.isSome = true ∧ r.exc = none :=
  run_success_returns_raw_outcomes [(1 : Int), 2] 6 c2res
    (by
      intro i b
      exact ⟨if i = 0 then 10 else 20, rfl⟩)

lemma filter_ne_nil_of_mem {γ : Type} (l : List γ) (p : γ → Bool) (x : γ)
    (hx : x ∈ l) (hpx : p x = true) : l.filter p ≠ [] := by
  intro hnil
  exact absurd hpx (by simpa using (List.filter_eq_nil_iff.mp hnil) x hx)

/-- C3: the return-vs-raise decision of `run` is exactly two-tier.  With
`ignore_exceptions = true` it always returns the full ordered outcome list and
raises nothing itself.  With `ignore_exceptions = false` it raises the
batch-level `FuturesTimeoutError` as soon as at least one outcome is a
per-task timeout (even when other outcomes carry non-timeout errors — timeout
takes precedence), otherwise raises `ParallelObjectException` when at least
one outcome carries a non-timeout error, and otherwise returns. -/
theorem run_two_tier_raise_policy {α β : Type}
    (xs : List α) (t : ℚ) (resolve : Nat → ℚ → FutureRes β) :
    ParallelObject.run (PyIterable.pylist xs) t resolve true =
      Except.ok (outcomesFrom resolve t 0 xs) ∧
    ((∃ r ∈ outcomesFrom resolve t 0 xs, r.exc.any PyErr.isTimeout = true) →
      ParallelObject.run (PyIterable.pylist xs) t resolve false =
        Except.error (RunError.futuresTimeoutBatch
          ((outcomesFrom resolve t 0 xs).map ParallelObjectResult.obj))) ∧
    ((∀ r ∈ outcomesFrom resolve t 0 xs, r.exc.any PyErr.isTimeout = false) →
      (∃ r ∈ outcomesFrom resolve t 0 xs, r.exc.isSome = true) →
      ParallelObject.run (PyIterable.pylist xs) t resolve false =
        Except.error (RunError.parallelObjectException (outcomesFrom resolve t 0 xs))) ∧
    ((∀ r ∈ outcomesFrom resolve t 0 xs, r.exc = none) →
      ParallelObject.run (PyIterable.pylist xs) t resolve false =
        Except.ok (outcomesFrom resolve t 0 xs)) := by
  refine ⟨?_, ?_, ?_, ?_⟩
  · rw [run_pylist]
    rfl
  · rintro ⟨r, hr, hpr⟩
    rw [run_pylist]
    cases hft : (outcomesFrom resolve t 0 xs).filter (fun r => r.exc.any PyErr.isTimeout) with
    | nil => exact absurd hft (filter_ne_nil_of_mem _ _ r hr hpr)
    | cons a l => simp
  · intro hall
    rintro ⟨r, hr, hpr⟩
    rw [run_pylist]
    cases hft : (outcomesFrom resolve t 0 xs).filter (fun r => r.exc.any PyErr.isTimeout) with
    | cons a l =>
      have ha := List.mem_filter.mp (hft ▸ List.mem_cons_self a l)
      exact absurd ha.2 (by rw [hall a ha.1]; simp)
    | nil =>
      cases hfe : (outcomesFrom resolve t 0 xs).filter (fun r => r.exc.isSome) with
      | nil => exact absurd hfe (filter_ne_nil_of_mem _ _ r hr hpr)
      | cons a l => simp
  · intro hall
    obtain ⟨hft, hfe⟩ := filters_empty_of_all_success _ hall
    rw [run_pylist]
    simp only [if_false, Bool.false_eq_true, hft, hfe]

def c3res : Nat → ℚ → FutureRes Int :=
  fun i _ =>
    if i = 0 then FutureRes.raise (PyErr.futuresTimeoutError "wait expired")
    else FutureRes.raise (PyErr.exception "boom")

theorem run_two_tier_raise_policy_witness :
    ParallelObject.run (PyIterable.pylist [(1 : Int), 2]) 6 c3res false =
      Except.error (RunError.futuresTimeoutBatch
        ((outcomesFrom c3res 6 0 [(1 : Int), 2]).map ParallelObjectResult.obj)) :=
  (run_two_tier_raise_policy [(1 : Int), 2] 6 c3res).2.1 (by decide)

/-- C4: within one run the wait budget starts at the configured timeout, is
left unchanged whenever a wait resolves in time (with a value or with a
failure), collapses to the minimal value `0.001` at the first per-task
timeout, and never increases again within that run; consequently the harvest
loop computes every outcome after the first timeout by waiting with the
collapsed budget `0.001`, so such a task is reported as timed out unless it
resolves even under that effectively-immediate wait. -/
theorem wait_budget_one_way_latch {α β : Type}
    (resolve : Nat → ℚ → FutureRes β) (t : ℚ) (xs : List α) :
    specBudget resolve t 0 = t ∧
    (∀ i, timedOutAt resolve t i = false →
      specBudget resolve t (i + 1) = specBudget resolve t i) ∧
    (∀ i j, j ≤ i → timedOutAt resolve t j = true →
      specBudget resolve t (i + 1) = 1/1000) ∧
    (runLoop resolve (PyIterable.pylist xs) 0 t xs.length =
      Except.ok (outcomesFrom resolve t 0 xs) ∧
     ∀ i, ∀ hi : i < xs.length,
       (outcomesFrom resolve t 0 xs).get? i =
         some (mkOutcome (xs.get ⟨i, hi⟩) (resolve i (specBudget resolve t i)))) ∧
    (∀ i j, j < i → timedOutAt resolve t j = true → ∀ hi : i < xs.length,
      (outcomesFrom resolve t 0 xs).get? i =
        some (mkOutcome (xs.get ⟨i, hi⟩) (resolve i (1/1000)))) := by
  have hget : ∀ i, ∀ hi : i < xs.length,
      (outcomesFrom resolve t 0 xs).get? i =
        some (mkOutcome (xs.get ⟨i, hi⟩) (resolve i (specBudget resolve t i))) := by
    intro i hi
    rw [outcomesFrom_get? resolve t xs 0 i, List.get?_eq_get hi]
    simp
  refine ⟨rfl, specBudget_succ_of_not_timedOut resolve t, specBudget_latch resolve t,
    ⟨runLoop_pylist_full resolve t xs, hget⟩, ?_⟩
  intro i j hji hto hi
  obtain ⟨k, rfl⟩ : ∃ k, i = k + 1 := ⟨i - 1, by omega⟩
  have hcollapsed : specBudget resolve t (k + 1) = 1/1000 :=
    specBudget_latch resolve t k j (by omega) hto
  rw [hget (k + 1) hi, hcollapsed]

def c4res : Nat → ℚ → FutureRes Int :=
  fun i _ =>
    if i = 0 then FutureRes.raise (PyErr.futuresTimeoutError "wait expired")
    else FutureRes.ok 9

theorem wait_budget_one_way_latch_witness :
    specBudget c4res 6 1 = 1/1000 ∧
    (outcomesFrom c4res 6 0 [(3 : Int), 4]).get? 1 =
      some (mkOutcome (4 : Int) (c4res 1 (1/1000))) :=
  ⟨(wait_budget_one_way_latch c4res 6 ([] : List Int)).2.2.1 0 0 (by decide) (by decide),
   (wait_budget_one_way_latch c4res 6 [(3 : Int), 4]).2.2.2.2 1 0 (by decide) (by decide)
     (by decide)⟩

/-- C5: every outcome the harvest loop produces for a resolved task has
exactly one of its `result` / `exc` fields populated — a success stores the
value and no exception, any failure (including a per-task timeout) stores an
exception and no value; in particular a timed-out wait yields an outcome whose
`exc` holds a `FuturesTimeoutError`. -/
theorem outcome_exactly_one_populated {α β : Type}
    (resolve : Nat → ℚ → FutureRes β) (t : ℚ) (xs : List α) :
    (∀ r ∈ outcomesFrom resolve t 0 xs,
      (r.result.isSome = true ∧ r.exc = none) ∨
      (r.result = none ∧ r.exc.isSome = true)) ∧
    (∀ i, ∀ hi : i < xs.length, timedOutAt resolve t i = true →
      ∃ e, (outcomesFrom resolve t 0 xs).get? i =
        some (ParallelObjectResult.mk (xs.get ⟨i, hi⟩) none (some e)) ∧
        e.isTimeout = true) := by
  constructor
  · intro r hr
    obtain ⟨o, res, rfl⟩ := outcomesFrom_mem resolve t xs 0 r hr
    cases res with
    | ok v => left; exact ⟨rfl, rfl⟩
    | raise e => right; exact ⟨rfl, rfl⟩
  · intro i hi hto
    unfold timedOutAt at hto
    cases hres : resolve i (specBudget resolve t i) with
    | ok v => rw [hres] at hto; simp at hto
    | raise e =>
      rw [hres] at hto
      have hte : e.isTimeout = true := by simpa using hto
      refine ⟨e, ?_, hte⟩
      rw [outcomesFrom_get? resolve t xs 0 i, List.get?_eq_get hi]
      simp [hres, mkOutcome]

theorem outcome_exactly_one_populated_witness :
    ((ParallelObjectResult.mk (3 : Int) (none : Option Int)
        (some (PyErr.futuresTimeoutError "wait expired"))).result = none ∧
      (ParallelObjectResult.mk (3 : Int) (none : Option Int)
        (some (PyErr.futuresTimeoutError "wait expired"))).exc.isSome = true) ∧
    ∃ e, (outcomesFrom c4res 6 0 [(3 : Int), 4]).get? 0 =
      some (ParallelObjectResult.mk (3 : Int) none (some e)) ∧ e.isTimeout = true := by
  constructor
  · rcases (outcome_exactly_one_populated c4res 6 [(3 : Int), 4]).1
      (ParallelObjectResult.mk (3 : Int) (none : Option Int)
        (some (PyErr.futuresTimeoutError "wait expired"))) (by decide) with h | h
    · exact absurd h.2 (by decide)
    · exact h
  · exact (outcome_exactly_one_populated c4res 6 [(3 : Int), 4]).2 0 (by decide) (by decide)

/-- C6 counterexample: input `10` times out while input `20` succeeds, yet the
batch-level `FuturesTimeoutError` message names `[10, 20]` — the source
interpolates `[r.obj for r in results]`, i.e. every input of the run, so the
succeeding, non-offending input `20` is named.  This refutes the claim's
"lists every offending input and ONLY offending inputs". -/
def c6res : Nat → ℚ → FutureRes Int :=
  fun i _ =>
    if i = 0 then FutureRes.raise (PyErr.futuresTimeoutError "wait expired")
    else FutureRes.ok 5

theorem batch_timeout_names_nonoffending_counterexample :
    ParallelObject.run (PyIterable.pylist [(10 : Int), 20]) 6 c6res false =
      Except.error (RunError.futuresTimeoutBatch [10, 20]) ∧
    (outcomesFrom c6res 6 0 [(10 : Int), 20]).get? 1 =
      some (ParallelObjectResult.mk (20 : Int) (some 5) none) := by
  exact ⟨rfl, rfl⟩

/-- C6 amended: a batch timeout failure raised by `run` names every input of
the entire run (all harvested outcomes' back-references) — which includes
every timed-out input but also every non-offending one; the aggregate
`ParallelObjectException` message, by contrast, pairs exactly the failing
inputs with their captured errors: every outcome with a populated `exc`
contributes its own `(input, error)` pair, and every pair in the message comes
from such an outcome. -/
theorem batch_failures_named_inputs {α β : Type}
    (xs : List α) (t : ℚ) (resolve : Nat → ℚ → FutureRes β) :
    (∀ named, ParallelObject.run (PyIterable.pylist xs) t resolve false =
        Except.error (RunError.futuresTimeoutBatch named) →
      named = (outcomesFrom resolve t 0 xs).map ParallelObjectResult.obj ∧
      ∀ r ∈ outcomesFrom resolve t 0 xs,
        r.exc.any PyErr.isTimeout = true → r.obj ∈ named) ∧
    (∀ rs, ParallelObject.run (PyIterable.pylist xs) t resolve false =
        Except.error (RunError.parallelObjectException rs) →
      (∀ r ∈ rs, ∀ e, r.exc = some e → (r.obj, e) ∈ parallelObjectExceptionPairs rs) ∧
      (∀ p ∈ parallelObjectExceptionPairs rs,
        ∃ r ∈ rs, r.obj = p.1 ∧ r.exc = some p.2)) := by
  constructor
  · intro named hrun
    rw [run_pylist] at hrun
    cases hft : (outcomesFrom resolve t 0 xs).filter
        (fun r => r.exc.any PyErr.isTimeout) with
    | nil =>
      rw [hft] at hrun
      cases hfe : (outcomesFrom resolve t 0 xs).filter (fun r => r.exc.isSome) with
      | nil => rw [hfe] at hrun; simp at hrun
      | cons a l => rw [hfe] at hrun; simp at hrun
    | cons a l =>
      rw [hft] at hrun
      simp only [if_false, Bool.false_eq_true] at hrun
      have hnamed : named = (outcomesFrom resolve t 0 xs).map ParallelObjectResult.obj := by
        have := Except.error.inj hrun.symm
        exact RunError.futuresTimeoutBatch.inj this
      refine ⟨hnamed, ?_⟩
      intro r hr _
      rw [hnamed]
      exact List.mem_map.mpr ⟨r, hr, rfl⟩
  · intro rs hrun
    rw [run_pylist] at hrun
    cases hft : (outcomesFrom resolve t 0 xs).filter
        (fun r => r.exc.any PyErr.isTimeout) with
    | cons a l => rw [hft] at hrun; simp at hrun
    | nil =>
      rw [hft] at hrun
      cases hfe : (outcomesFrom resolve t 0 xs).filter (fun r => r.exc.isSome) with
      | nil => rw [hfe] at hrun; simp at hrun
      | cons a l =>
        rw [hfe] at hrun
        simp only [if_false, Bool.false_eq_true] at hrun
        have hrs : rs = outcomesFrom resolve t 0 xs := by
          have := Except.error.inj hrun.symm
          exact RunError.parallelObjectException.inj this
        clear hrun
        constructor
        · intro r hr e he
          unfold parallelObjectExceptionPairs
          exact List.mem_filterMap.mpr ⟨r, hr, by rw [he]; rfl⟩
        · intro p hp
          unfold parallelObjectExceptionPairs at hp
          obtain ⟨r, hr, hfr⟩ := List.mem_filterMap.mp hp
          obtain ⟨e, he, hpe⟩ := Option.map_eq_some'.mp hfr
          exact ⟨r, hr, by rw [← hpe], by rw [he, ← hpe]⟩

theorem batch_failures_named_inputs_witness :
    ((10 : Int), PyErr.exception "boom") ∈
      parallelObjectExceptionPairs
        [ParallelObjectResult.mk (10 : Int) (none : Option Int)
          (some (PyErr.exception "boom")),
         ParallelObjectResult.mk (20 : Int) (some 5) none] := by
  have hpairs := (batch_failures_named_inputs [(10 : Int), 20] 6
    (fun i _ =>
      if i = 0 then FutureRes.raise (PyErr.exception "boom")
      else FutureRes.ok 5)).2
    [ParallelObjectResult.mk (10 : Int) (none : Option Int)
      (some (PyErr.exception "boom")),
     ParallelObjectResult.mk (20 : Int) (some 5) none] rfl
  exact hpairs.1
    (ParallelObjectResult.mk (10 : Int) (none : Option Int)
      (some (PyErr.exception "boom")))
    (by decide) (PyErr.exception "boom") rfl

/-- C7 counterexample: no setting of the code's single boolean `unpack_objects`
realises the spec's standalone `positional` mode.  With unpacking off a
sequence input is not spread; with unpacking on a mapping input is spread as
keyword arguments instead of being passed as a single positional argument.
So the tri-modal adapter the claim describes does not exist in the code. -/
theorem unpack_positional_mode_counterexample :
    ¬ ∃ b : Bool, ∀ obj : PyVal,
        submitInvocation b obj = specUnpackAdapter UnpackMode.positional obj := by
  rintro ⟨b, hb⟩
  cases b with
  | false =>
    have h1 := hb (PyVal.list [PyVal.int 1, PyVal.int 2])
    simp [submitInvocation, specUnpackAdapter] at h1
  | true =>
    have h2 := hb (PyVal.dict [("x", PyVal.int 1)])
    simp [submitInvocation, specUnpackAdapter] at h2

/-- C7 amended: the adapter is governed by one boolean, not a three-valued
mode.  With unpacking disabled every input is passed as a single positional
argument (the spec's `none` mode).  With unpacking enabled, an ordered
sequence is spread positionally (the spec's `positional` behaviour), a mapping
is spread as named arguments (the spec's `keyword` behaviour), and any other
input is passed as a single positional argument — both spreading behaviours
are active simultaneously and cannot be selected individually. -/
theorem unpack_boolean_adapter (obj : PyVal) :
    submitInvocation false obj = specUnpackAdapter UnpackMode.nomode obj ∧
    submitInvocation true obj =
      (match obj with
       | PyVal.list _ => specUnpackAdapter UnpackMode.positional obj
       | PyVal.tuple _ => specUnpackAdapter UnpackMode.positional obj
       | PyVal.dict _ => specUnpackAdapter UnpackMode.keyword obj
       | _ => specUnpackAdapter UnpackMode.nomode obj) := by
  cases obj <;> exact ⟨rfl, rfl⟩

/-- C9 counterexample: the cleanup of `run` is not local to the run call — its
effect trace mutates the process-wide interpreter exit-hook registry, by
unregistering the futures library's `_python_exit` hook
(`atexit.unregister(_python_exit)`).  This refutes the claim's "pool ownership
and shutdown are explicit and local to the run call" with no involvement of
process-wide exit hooks. -/
theorem clean_up_touches_exit_hooks_counterexample :
    touchesProcessExitHooks (ParallelObject.clean_up 2) = true ∧
    CleanupEffect.atexitUnregisterHook ExitHook.pythonExitWaiter ∈
      ParallelObject.clean_up 2 := by
  exact ⟨rfl, by decide⟩

/-- C9 amended: after harvesting, cleanup cancels every future (so an
execution unit whose task never started is cancelled and never runs), shuts
the worker pool down without waiting for still-running tasks, and installs no
process-wide exit hook to reclaim leaked tasks — but it is not purely local to
the run call: it additionally unregisters the futures library's process-wide
`_python_exit` exit hook so the interpreter will not wait for the leaked tasks
at shutdown. -/
theorem clean_up_effects (n : Nat) :
    (∀ i, i < n → CleanupEffect.cancelFuture i ∈ ParallelObject.clean_up n) ∧
    CleanupEffect.shutdownPool false ∈ ParallelObject.clean_up n ∧
    CleanupEffect.shutdownPool true ∉ ParallelObject.clean_up n ∧
    (∀ h, CleanupEffect.atexitRegisterHook h ∉ ParallelObject.clean_up n) ∧
    CleanupEffect.atexitUnregisterHook ExitHook.pythonExitWaiter ∈
      ParallelObject.clean_up n := by
  refine ⟨?_, ?_, ?_, ?_, ?_⟩
  · intro i hi
    unfold ParallelObject.clean_up
    exact List.mem_append_left _ (List.mem_map.mpr ⟨i, List.mem_range.mpr hi, rfl⟩)
  · exact List.mem_append_right _ (by simp)
  · intro hmem
    unfold ParallelObject.clean_up at hmem
    rcases List.mem_append.mp hmem with h | h
    · obtain ⟨i, _, hi⟩ := List.mem_map.mp h
      exact CleanupEffect.noConfusion hi
    · simp at h
  · intro hook hmem
    unfold ParallelObject.clean_up at hmem
    rcases List.mem_append.mp hmem with h | h
    · obtain ⟨i, _, hi⟩ := List.mem_map.mp h
      exact CleanupEffect.noConfusion hi
    · simp at h
  · exact List.mem_append_right _ (by simp)

theorem clean_up_effects_witness :
    CleanupEffect.cancelFuture 0 ∈ ParallelObject.clean_up 2 ∧
    CleanupEffect.shutdownPool false ∈ ParallelObject.clean_up 2 :=
  ⟨(clean_up_effects 2).1 0 (by decide), (clean_up_effects 2).2.1⟩

/-- C10: `run` requires the stored input collection to support positional
indexing even though the constructor accepts any iterable.  Submission (plain
iteration) succeeds on a one-shot generator and creates one future per
element, but the harvest loop's `self.objects[obj_idx]` raises `TypeError`
while recording the first outcome, so `run` propagates a `TypeError` instead
of producing an outcome list — under either error policy. -/
theorem run_generator_raises_type_error {α β : Type}
    (xs : List α) (hne : xs ≠ []) (t : ℚ)
    (resolve : Nat → ℚ → FutureRes β) (ign : Bool) :
    (PyIterable.pygen xs : PyIterable α).toList.length = xs.length ∧
    ∃ msg, ParallelObject.run (PyIterable.pygen xs) t resolve ign =
      Except.error (RunError.propagated (PyErr.typeError msg)) := by
  refine ⟨rfl, "generator object is not subscriptable", ?_⟩
  obtain ⟨x, rest, rfl⟩ := List.exists_cons_of_ne_nil hne
  unfold ParallelObject.run
  have hlen : (PyIterable.pygen (x :: rest) : PyIterable α).toList.length =
      rest.length + 1 := rfl
  rw [hlen, runLoop_succ]
  cases resolve 0 t with
  | ok v => rfl
  | raise e => rfl

def c10res : Nat → ℚ → FutureRes Int :=
  fun _ _ => FutureRes.ok 1

theorem run_generator_raises_type_error_witness :
    (PyIterable.pygen [(7 : Int)] : PyIterable Int).toList.length =
      ([(7 : Int)] : List Int).length ∧
    ∃ msg, ParallelObject.run (PyIterable.pygen [(7 : Int)]) 6 c10res false =
      Except.error (RunError.propagated (PyErr.typeError msg)) :=
  run_generator_raises_type_error [(7 : Int)] (by simp) 6 c10res false
